import Mathlib

/-!
The Go adapter of ahoward/tc: operation dispatch and result correlation.

A shallow embedding of `projects/go/store/store.go`,
`projects/go/operations/operations.go` and `projects/go/dao/dao.go`.

Modelling decisions.

* A Go `interface{}` value is a `Value`: the JSON kinds, the typed nil slice
  and the typed nil map (both pass the corresponding type assertion), and
  `other` for every remaining dynamic type (it fails every type assertion the
  handlers make).
* A Go `map[string]interface{}` is an association list `JMap`; a map literal is
  the list of its entries in source order, `m[k]` is `JMap.get`, `m[k] = v` is
  `JMap.set`.  A nil result map is `none`.
* A `float64` is an `F64`: a rational (finite values), the two infinities or
  NaN; the only float operation of the program is the comparison `x < 0`.
* The result store, a `map[string]OperationResponse` behind a mutex, is a
  `Finmap` in sequential use; `DAO.Call` passes the DAO explicitly and returns
  the updated one.
* What the program reads from its environment is an explicit input `Env`: the
  bytes (or the failure) of `crypto/rand.Read` and the clock readings used by
  each `GenerateUUID` call, the formatted timestamp, and `strings.ToUpper`.
-/

namespace TC

/-! ## Values -/

/-- A Go `float64`: finite values are rationals; infinities and NaN are kept apart. -/
inductive F64 where
  | finite (q : ℚ)
  | posInf
  | negInf
  | nan

/-- The Go comparison `x < 0` on a `float64`. -/
def F64.ltZero : F64 → Bool
  | .finite q => decide (q < 0)
  | .negInf => true
  | .posInf => false
  | .nan => false

/-- A Go `interface{}` value. -/
inductive Value where
  | null
  | bool (b : Bool)
  | num (x : F64)
  | str (s : String)
  | arr (xs : List Value)
  | nilArr
  | obj (fields : List (String × Value))
  | nilObj
  | other (tag : Nat)

/-- A Go `map[string]interface{}`. -/
abbrev JMap := List (String × Value)

/-- The map read `m[k]`; `none` is the nil interface returned for a missing key. -/
def JMap.get (m : JMap) (k : String) : Option Value :=
  List.lookup k m

/-- The map write `m[k] = v`. -/
def JMap.set : JMap → String → Value → JMap
  | [], k, v => [(k, v)]
  | (k', v') :: m, k, v => if k' = k then (k, v) :: m else (k', v') :: JMap.set m k v

/-- The type assertion `x.(string)`: `none` when `ok` is false. -/
def asString : Option Value → Option String
  | some (.str s) => some s
  | _ => none

/-- The type assertion `x.(float64)`: `none` when `ok` is false. -/
def asFloat64 : Option Value → Option F64
  | some (.num x) => some x
  | _ => none

/-! ## operations.go -/

/-- The environment read by one call of `GenerateUUID`: the outcome of
`rand.Read` (`none` is an error, otherwise the 16 bytes) and the two clock
readings `time.Now().Unix()` and `time.Now().UnixNano()` of the fallback. -/
structure Entropy where
  rand : Option (Fin 16 → Fin 256)
  unix : Int
  unixNano : Int

/-- The environment read by one `DAO.Call`. -/
structure Env where
  /-- environment of the `GenerateUUID` call in `DAO.Call` -/
  corr : Entropy
  /-- environment of the `GenerateUUID` call in `CreateTemplate` -/
  tmpl : Entropy
  /-- value of `time.Now().UTC().Format(time.RFC3339)` -/
  now : String
  /-- the library function `strings.ToUpper` -/
  toUpper : String → String

/-- One lowercase hexadecimal digit. -/
def hexDigit (n : Nat) : Char :=
  if n < 10 then Char.ofNat (48 + n) else Char.ofNat (87 + n)

/-- The verb `%x` on one byte of a byte slice: two hexadecimal digits. -/
def hexByte (b : Nat) : List Char :=
  [hexDigit (b / 16 % 16), hexDigit (b % 16)]

/-- The verb `%x` on a byte slice. -/
def hexBytes (bs : List Nat) : List Char :=
  bs.flatMap hexByte

/-- The hexadecimal digits of a natural number, most significant first (`0` is one digit);
the fuel bounds the number of digits. -/
def hexNatAux : Nat → Nat → List Char → List Char
  | 0, _, acc => acc
  | fuel + 1, n, acc =>
    if n / 16 = 0 then hexDigit (n % 16) :: acc
    else hexNatAux fuel (n / 16) (hexDigit (n % 16) :: acc)

/-- The hexadecimal digits of a natural number. -/
def hexNat (n : Nat) : List Char :=
  hexNatAux (n + 1) n []

/-- The verb `%0Wx` on a signed integer: the digits are padded with zeros up to the
width, and a minus sign takes one column of it. -/
def fmtHexInt (width : Nat) (n : Int) : List Char :=
  if n < 0 then
    let ds := hexNat n.natAbs
    '-' :: (List.replicate (width - 1 - ds.length) '0' ++ ds)
  else
    let ds := hexNat n.natAbs
    List.replicate (width - ds.length) '0' ++ ds

/-- The slice `b[lo:hi]` of the 16-byte buffer. -/
def slice (b : Fin 16 → Nat) (lo hi : Nat) : List Nat :=
  ((List.finRange 16).filter (fun i => decide (lo ≤ i.val ∧ i.val < hi))).map b

/-- The buffer after `b[6] = (b[6] & 0x0f) | 0x40` and `b[8] = (b[8] & 0x3f) | 0x80`. -/
def setVersionVariant (r : Fin 16 → Fin 256) : Fin 16 → Nat :=
  fun i =>
    if i.val = 6 then ((r i).val &&& 0x0f) ||| 0x40
    else if i.val = 8 then ((r i).val &&& 0x3f) ||| 0x80
    else (r i).val

/-- GenerateUUID creates a UUID v4 from `crypto/rand`, with a timestamp fallback. -/
def GenerateUUID (src : Entropy) : String :=
  match src.rand with
  | none =>
    String.mk (fmtHexInt 8 src.unix ++ "-0000-4000-8000-".toList ++ fmtHexInt 12 src.unixNano)
  | some r =>
    let b := setVersionVariant r
    String.mk (hexBytes (slice b 0 4) ++ '-' :: hexBytes (slice b 4 6) ++ '-' ::
      hexBytes (slice b 6 8) ++ '-' :: hexBytes (slice b 8 10) ++ '-' ::
      hexBytes (slice b 10 16))

/-- ProcessPrompt simulates AI prompt processing. -/
def ProcessPrompt (e : Env) (params : JMap) : Except String JMap :=
  match asString (params.get "text") with
  | none => .error "Missing required parameter: text"
  | some text =>
    if text = "" then .error "Missing required parameter: text"
    else if text.utf8ByteSize > 10000 then
      .error "Text must be between 1 and 10000 characters"
    else
      .ok [("text", .str text),
           ("processed", .str (e.toUpper text ++ " [AI-processed]")),
           ("timestamp", .str e.now)]

/-- One character of the class `[a-zA-Z0-9-]`. -/
def isNameChar (c : Char) : Bool :=
  ('a' ≤ c && c ≤ 'z') || ('A' ≤ c && c ≤ 'Z') || ('0' ≤ c && c ≤ '9') || c = '-'

/-- The match of the regular expression `^[a-zA-Z0-9-]+$` (unanchored flags absent, so
`$` is the end of the text). -/
def validName (name : String) : Bool :=
  !name.toList.isEmpty && name.toList.all isNameChar

/-- The type assertion `x.([]interface{})` with the result of a failure discarded:
the slice itself, or the nil slice. -/
def asSliceOrNil : Option Value → Value
  | some (.arr xs) => .arr xs
  | _ => .nilArr

/-- CreateTemplate creates a reusable template with variable placeholders. -/
def CreateTemplate (e : Env) (params : JMap) : Except String JMap :=
  match asString (params.get "name") with
  | none => .error "Missing required parameter: name"
  | some name =>
    if name = "" then .error "Missing required parameter: name"
    else
      match asString (params.get "pattern") with
      | none => .error "Missing required parameter: pattern"
      | some pattern =>
        if pattern = "" then .error "Missing required parameter: pattern"
        else
          let vars := asSliceOrNil (params.get "variables")
          if !validName name then
            .error "Invalid template name: must be alphanumeric with hyphens"
          else
            .ok [("id", .str (GenerateUUID e.tmpl)),
                 ("name", .str name),
                 ("pattern", .str pattern),
                 ("variables", vars)]

/-- The type assertion `x.(map[string]interface{})`, replaced by a fresh empty map
when it fails. -/
def asMapOrEmpty : Option Value → Value
  | some (.obj fields) => .obj fields
  | some .nilObj => .nilObj
  | _ => .obj []

/-- RenderTemplate renders a template with variable substitution. -/
def RenderTemplate (params : JMap) : Except String JMap :=
  match asString (params.get "template_id") with
  | none => .error "Missing required parameter: template_id"
  | some templateID =>
    if templateID = "" then .error "Missing required parameter: template_id"
    else
      let values := asMapOrEmpty (params.get "values")
      let rendered := "Rendered template " ++ templateID ++ " with variables"
      .ok [("template_id", .str templateID),
           ("rendered", .str rendered),
           ("variables_used", values)]

/-- TrackUsage tracks operation usage for analytics. -/
def TrackUsage (e : Env) (params : JMap) : Except String JMap :=
  match asString (params.get "operation") with
  | none => .error "Missing required parameter: operation"
  | some operation =>
    if operation = "" then .error "Missing required parameter: operation"
    else
      match asFloat64 (params.get "duration_ms") with
      | none => .error "Missing required parameter: duration_ms"
      | some durationMS =>
        if durationMS.ltZero then .error "duration_ms must be non-negative"
        else
          .ok [("tracked", .bool true),
               ("operation", .str operation),
               ("timestamp", .str e.now)]

/-! ## store.go -/

/-- OperationResponse represents a response from a DAO operation; a nil `Result`
is `none`. -/
structure OperationResponse where
  ID : String
  Status : String
  Result : Option JMap
  Error : String

/-- The zero value of `OperationResponse`, returned by a failed map read. -/
def OperationResponse.zero : OperationResponse :=
  { ID := "", Status := "", Result := none, Error := "" }

/-- ResultStore is the in-memory storage for operation results. -/
abbrev ResultStore := Finmap (fun _ : String => OperationResponse)

/-- NewResultStore creates a new ResultStore instance. -/
def NewResultStore : ResultStore := ∅

/-- Set stores an operation response by UUID. -/
def ResultStore.Set (rs : ResultStore) (id : String) (response : OperationResponse) :
    ResultStore :=
  Finmap.insert id response rs

/-- Get retrieves an operation response by UUID. -/
def ResultStore.Get (rs : ResultStore) (id : String) : OperationResponse × Bool :=
  match Finmap.lookup id rs with
  | some response => (response, true)
  | none => (OperationResponse.zero, false)

/-- Delete removes an operation response by UUID. -/
def ResultStore.Delete (rs : ResultStore) (id : String) : ResultStore :=
  Finmap.erase id rs

/-- Exists checks if a result exists for the given UUID. -/
def ResultStore.Exists (rs : ResultStore) (id : String) : Bool :=
  (Finmap.lookup id rs).isSome

/-! ## dao.go -/

/-- DAO provides a unified interface for operation invocation. -/
structure DAO where
  store : ResultStore

/-- NewDAO creates a new DAO instance. -/
def NewDAO : DAO :=
  { store := NewResultStore }

/-- The method routeOperation routes an operation to its handler. -/
def DAO.routeOperation (_d : DAO) (e : Env) (operation : String) (params : JMap) :
    Except String JMap :=
  if operation = "/prompt/generate" then ProcessPrompt e params
  else if operation = "/template/create" then CreateTemplate e params
  else if operation = "/template/render" then RenderTemplate params
  else if operation = "/usage/track" then TrackUsage e params
  else .error ("Invalid operation: " ++ operation)

/-- The method responseToMap converts an OperationResponse to a map for JSON encoding. -/
def DAO.responseToMap (_d : DAO) (resp : OperationResponse) : JMap :=
  let m : JMap := [("id", .str resp.ID), ("status", .str resp.Status)]
  let m := match resp.Result with
    | some r => JMap.set m "result" (.obj r)
    | none => m
  let m := if resp.Error ≠ "" then JMap.set m "error" (.str resp.Error) else m
  m

/-- Call invokes an operation with parameters; it returns the response and the DAO
with its store as the call leaves it. -/
def DAO.Call (d : DAO) (e : Env) (operation : String) (params : JMap) : JMap × DAO :=
  if operation = "/result/poll" then
    match asString (params.get "id") with
    | none => ([("error", .str "Missing required parameter: id")], d)
    | some pollID =>
      if pollID = "" then ([("error", .str "Missing required parameter: id")], d)
      else
        match d.store.Get pollID with
        | (_, false) => ([("error", .str ("Result not found or expired: " ++ pollID))], d)
        | (stored, true) => (d.responseToMap stored, d)
  else
    let id := GenerateUUID e.corr
    match d.routeOperation e operation params with
    | .error err =>
      let failedResponse : OperationResponse :=
        { ID := id, Status := "failed", Result := none, Error := err }
      ([("error", .str err)], { d with store := d.store.Set id failedResponse })
    | .ok result =>
      if operation = "/usage/track" then
        let completedResponse : OperationResponse :=
          { ID := id, Status := "completed", Result := some result, Error := "" }
        (d.responseToMap completedResponse,
          { d with store := d.store.Set id completedResponse })
      else
        let completedResponse : OperationResponse :=
          { ID := id, Status := "completed", Result := some result, Error := "" }
        ([("id", .str id), ("status", .str "pending")],
          { d with store := d.store.Set id completedResponse })

/-- A recorded invocation: the environment it reads, the operation name, the parameters. -/
abbrev Invocation := Env × String × JMap

/-- The DAO after a sequence of `Call` invocations, oldest first. -/
def runCalls (d : DAO) : List Invocation → DAO
  | [] => d
  | (e, operation, params) :: rest => runCalls (d.Call e operation params).2 rest

/-- A sample environment: sixteen random bytes for the correlation id, a failing random
source for the template id, a fixed timestamp and the ASCII upper-casing. -/
def sampleEnv : Env :=
  { corr := { rand := some (fun i => ⟨i.val * 17 % 256, by omega⟩), unix := 0, unixNano := 0 }
    tmpl := { rand := none, unix := 1700000000, unixNano := 1700000000123456789 }
    now := "2024-01-01T00:00:00Z"
    toUpper := String.toUpper }

/-- The invariant of the store used in the proofs: a stored record sits under a non-empty key
that its `ID` repeats, and is either completed with a result and no error or failed with an
error and no result. -/
def RecordShape (key : String) (r : OperationResponse) : Prop :=
  key ≠ "" ∧ r.ID = key ∧
    ((r.Status = "completed" ∧ r.Result ≠ none ∧ r.Error = "") ∨
      (r.Status = "failed" ∧ r.Error ≠ "" ∧ r.Result = none))

/-- The record that the dispatch branch of `DAO.Call` stores under the generated id
(dao.go, lines 49 to 81): failed with the message on a router error, completed with the result
otherwise. -/
def writtenRecord (e : Env) (operation : String) (params : JMap) : OperationResponse :=
  match NewDAO.routeOperation e operation params with
  | .error err =>
    { ID := GenerateUUID e.corr, Status := "failed", Result := none, Error := err }
  | .ok result =>
    { ID := GenerateUUID e.corr, Status := "completed", Result := some result, Error := "" }

/-- A lowercase hexadecimal digit: one of `0` to `9` or `a` to `f`. -/
def isLowerHex (c : Char) : Bool :=
  ('0' ≤ c && c ≤ '9') || ('a' ≤ c && c ≤ 'f')

/-- Sixteen sample bytes: 0x00, 0x11, up to 0xff. -/
def sampleBytes : Fin 16 → Fin 256 :=
  fun i => ⟨i.val * 17 % 256, by omega⟩

/-- Sixteen zero bytes. -/
def zeroBytes : Fin 16 → Fin 256 :=
  fun _ => 0

/-- Sixteen zero bytes except for the bits that `GenerateUUID` overwrites: byte 6 is 0xf0 and
byte 8 is 0xc0. -/
def fixedBitsBytes : Fin 16 → Fin 256 :=
  fun i => if i.val = 6 then 0xf0 else if i.val = 8 then 0xc0 else 0

/-! ## Auxiliary facts -/

/-- Every identifier produced by `GenerateUUID` is a non-empty string. -/
theorem GenerateUUID_ne_empty (src : Entropy) : GenerateUUID src ≠ "" := by
  intro h
  have h2 := congrArg String.length h
  unfold GenerateUUID at h2
  cases hr : src.rand with
  | none =>
    rw [hr] at h2
    simp [String.length] at h2
  | some r =>
    rw [hr] at h2
    simp [String.length] at h2

/-- The message of the unknown-operation error is never empty. -/
theorem invalid_operation_ne_empty (a : String) : ("Invalid operation: " ++ a) ≠ "" := by
  intro h
  have hlen := congrArg String.length h
  rw [String.length_append] at hlen
  have h19 : "Invalid operation: ".length = 19 := by decide
  rw [h19] at hlen
  simp at hlen

/-- Every error message produced by the router is a non-empty string. -/
theorem routeOperation_error_ne_empty (d : DAO) (e : Env) (operation : String)
    (params : JMap) (msg : String)
    (h : d.routeOperation e operation params = .error msg) : msg ≠ "" := by
  unfold DAO.routeOperation ProcessPrompt CreateTemplate RenderTemplate TrackUsage at h
  split_ifs at h <;> (try split at h) <;> (try split_ifs at h) <;> (try split at h) <;>
    (try split_ifs at h) <;>
    first
    | (cases h; decide)
    | (cases h; exact invalid_operation_ne_empty _)

/-- The poll branch never touches the store. -/
theorem Call_poll_store (d : DAO) (e : Env) (params : JMap) :
    (d.Call e "/result/poll" params).2 = d := by
  unfold DAO.Call
  simp only [if_true]
  split
  · rfl
  · split_ifs
    · rfl
    · split <;> rfl

/-- The poll branch on a stored identifier returns the reshaped record. -/
theorem Call_poll_found (d : DAO) (e : Env) (params : JMap) (id : String)
    (r : OperationResponse) (hid : params.get "id" = some (.str id)) (hne : id ≠ "")
    (hr : Finmap.lookup id d.store = some r) :
    (d.Call e "/result/poll" params).1 = d.responseToMap r := by
  unfold DAO.Call
  simp [hid, asString, hne, ResultStore.Get, hr]

/-- The poll branch on an identifier that is not stored reports it as not found. -/
theorem Call_poll_absent (d : DAO) (e : Env) (params : JMap) (id : String)
    (hid : params.get "id" = some (.str id)) (hne : id ≠ "")
    (hr : Finmap.lookup id d.store = none) :
    (d.Call e "/result/poll" params).1 =
      [("error", .str ("Result not found or expired: " ++ id))] := by
  unfold DAO.Call
  simp [hid, asString, hne, ResultStore.Get, hr]

/-- The poll branch without a usable `id` parameter reports the missing parameter. -/
theorem Call_poll_missing (d : DAO) (e : Env) (params : JMap)
    (hid : asString (params.get "id") = none ∨ asString (params.get "id") = some "") :
    (d.Call e "/result/poll" params).1 = [("error", .str "Missing required parameter: id")] := by
  unfold DAO.Call
  rcases hid with hid | hid <;> simp [hid]

/-- The dispatch branch on a router error stores a failed record and replies with the
message alone. -/
theorem Call_dispatch_error (d : DAO) (e : Env) (operation : String) (params : JMap)
    (msg : String) (hop : operation ≠ "/result/poll")
    (hr : d.routeOperation e operation params = .error msg) :
    (d.Call e operation params).1 = [("error", .str msg)] ∧
      (d.Call e operation params).2.store =
        d.store.Set (GenerateUUID e.corr)
          (OperationResponse.mk (GenerateUUID e.corr) "failed" none msg) := by
  unfold DAO.Call
  simp [hop, hr]

/-- The dispatch branch on a router success stores a completed record; the reply is the
reshaped record for `/usage/track` and the pending handle otherwise. -/
theorem Call_dispatch_ok (d : DAO) (e : Env) (operation : String) (params : JMap)
    (result : JMap) (hop : operation ≠ "/result/poll")
    (hr : d.routeOperation e operation params = .ok result) :
    (d.Call e operation params).1 =
        (if operation = "/usage/track" then
          d.responseToMap (OperationResponse.mk (GenerateUUID e.corr) "completed" (some result) "")
        else [("id", .str (GenerateUUID e.corr)), ("status", .str "pending")]) ∧
      (d.Call e operation params).2.store =
        d.store.Set (GenerateUUID e.corr)
          (OperationResponse.mk (GenerateUUID e.corr) "completed" (some result) "") := by
  unfold DAO.Call
  simp only [hop, if_false, hr]
  split_ifs <;> exact ⟨rfl, rfl⟩

/-- A record just written is the one found under its identifier. -/
theorem lookup_Set_self (rs : ResultStore) (id : String) (r : OperationResponse) :
    Finmap.lookup id (rs.Set id r) = some r := by
  unfold ResultStore.Set
  exact Finmap.lookup_insert rs

/-- A write leaves the records under the other identifiers as they were. -/
theorem lookup_Set_other (rs : ResultStore) (id id' : String) (r : OperationResponse)
    (h : id' ≠ id) : Finmap.lookup id' (rs.Set id r) = Finmap.lookup id' rs := by
  unfold ResultStore.Set
  exact Finmap.lookup_insert_of_ne rs h

/-- The poll branch reads nothing from the environment. -/
theorem Call_poll_env (d : DAO) (e e' : Env) (params : JMap) :
    d.Call e "/result/poll" params = d.Call e' "/result/poll" params := by
  unfold DAO.Call
  simp only [if_true]

/-- One `Call` keeps every stored record in shape. -/
theorem Call_preserves_RecordShape (d : DAO) (e : Env) (operation : String) (params : JMap)
    (hd : ∀ key r, Finmap.lookup key d.store = some r → RecordShape key r) :
    ∀ key r, Finmap.lookup key (d.Call e operation params).2.store = some r →
      RecordShape key r := by
  intro key r hl
  by_cases hop : operation = "/result/poll"
  · rw [hop, Call_poll_store] at hl
    exact hd key r hl
  · cases hr : d.routeOperation e operation params with
    | error msg =>
      rw [(Call_dispatch_error d e operation params msg hop hr).2] at hl
      by_cases hk : key = GenerateUUID e.corr
      · rw [hk, lookup_Set_self] at hl
        cases hl
        rw [hk]
        exact ⟨GenerateUUID_ne_empty _, rfl,
          Or.inr ⟨rfl, routeOperation_error_ne_empty d e operation params msg hr, rfl⟩⟩
      · rw [lookup_Set_other _ _ _ _ hk] at hl
        exact hd key r hl
    | ok result =>
      rw [(Call_dispatch_ok d e operation params result hop hr).2] at hl
      by_cases hk : key = GenerateUUID e.corr
      · rw [hk, lookup_Set_self] at hl
        cases hl
        rw [hk]
        exact ⟨GenerateUUID_ne_empty _, rfl, Or.inl ⟨rfl, by simp, rfl⟩⟩
      · rw [lookup_Set_other _ _ _ _ hk] at hl
        exact hd key r hl

/-- Every sequence of calls keeps every stored record in shape. -/
theorem runCalls_preserves_RecordShape (calls : List Invocation) :
    ∀ d : DAO, (∀ key r, Finmap.lookup key d.store = some r → RecordShape key r) →
      ∀ key r, Finmap.lookup key (runCalls d calls).store = some r → RecordShape key r := by
  induction calls with
  | nil => intro d hd; exact hd
  | cons c rest ih =>
    intro d hd
    obtain ⟨e, operation, params⟩ := c
    exact ih _ (Call_preserves_RecordShape d e operation params hd)

/-- Every record of a store reached from the empty store is in shape. -/
theorem reachable_RecordShape (calls : List Invocation) (key : String)
    (r : OperationResponse)
    (h : Finmap.lookup key (runCalls NewDAO calls).store = some r) : RecordShape key r := by
  refine runCalls_preserves_RecordShape calls NewDAO ?_ key r h
  intro k r' hl
  simp [NewDAO, NewResultStore] at hl

/-! ## The dispatch contract -/

/-- C1: for the operations /prompt/generate, /template/create and /template/render, when the
handler succeeds with result `r`, `DAO.Call` replies with exactly the two fields `id` (the
generated id) and `status = "pending"`, and a poll with that id made right afterwards
replies with `id`, `status = "completed"` and `result = r`. -/
theorem C1_pending_reply_then_completed_poll (d : DAO) (e e' : Env) (operation : String)
    (params r : JMap)
    (hop : operation = "/prompt/generate" ∨ operation = "/template/create" ∨
      operation = "/template/render")
    (hr : d.routeOperation e operation params = .ok r) :
    (d.Call e operation params).1 =
        [("id", .str (GenerateUUID e.corr)), ("status", .str "pending")] ∧
      ((d.Call e operation params).2.Call e' "/result/poll"
          [("id", .str (GenerateUUID e.corr))]).1 =
        [("id", .str (GenerateUUID e.corr)), ("status", .str "completed"),
          ("result", .obj r)] := by
  have hpoll : operation ≠ "/result/poll" := by
    rcases hop with h | h | h <;> (rw [h]; decide)
  have htrack : operation ≠ "/usage/track" := by
    rcases hop with h | h | h <;> (rw [h]; decide)
  obtain ⟨h1, h2⟩ := Call_dispatch_ok d e operation params r hpoll hr
  rw [if_neg htrack] at h1
  refine ⟨h1, ?_⟩
  rw [Call_poll_found (d.Call e operation params).2 e' [("id", .str (GenerateUUID e.corr))]
    (GenerateUUID e.corr) (OperationResponse.mk (GenerateUUID e.corr) "completed" (some r) "")
    rfl (GenerateUUID_ne_empty _) (by rw [h2]; exact lookup_Set_self _ _ _)]
  simp [DAO.responseToMap, JMap.set]

/-- C1 at a concrete request: rendering template `t1` on a fresh DAO. -/
theorem C1_pending_reply_then_completed_poll_witness :
    (NewDAO.Call sampleEnv "/template/render" [("template_id", .str "t1")]).1 =
        [("id", .str (GenerateUUID sampleEnv.corr)), ("status", .str "pending")] ∧
      ((NewDAO.Call sampleEnv "/template/render" [("template_id", .str "t1")]).2.Call
          sampleEnv "/result/poll" [("id", .str (GenerateUUID sampleEnv.corr))]).1 =
        [("id", .str (GenerateUUID sampleEnv.corr)), ("status", .str "completed"),
          ("result", .obj [("template_id", .str "t1"),
            ("rendered", .str "Rendered template t1 with variables"),
            ("variables_used", .obj [])])] :=
  C1_pending_reply_then_completed_poll NewDAO sampleEnv sampleEnv "/template/render"
    [("template_id", .str "t1")] _ (Or.inr (Or.inr rfl)) rfl

/-- C2: when the router fails with message `msg` on a non-poll operation, `DAO.Call` replies
with exactly the field `error = msg`, the store then holds under the generated id the record
with that id, status "failed", error `msg` and no result, and a poll with that id replies with
`id`, `status = "failed"` and `error = msg`. -/
theorem C2_error_reply_and_failed_record (d : DAO) (e e' : Env) (operation : String)
    (params : JMap) (msg : String) (hop : operation ≠ "/result/poll")
    (hr : d.routeOperation e operation params = .error msg) :
    (d.Call e operation params).1 = [("error", .str msg)] ∧
      (d.Call e operation params).2.store.Get (GenerateUUID e.corr) =
        ({ ID := GenerateUUID e.corr, Status := "failed", Result := none, Error := msg },
          true) ∧
      ((d.Call e operation params).2.Call e' "/result/poll"
          [("id", .str (GenerateUUID e.corr))]).1 =
        [("id", .str (GenerateUUID e.corr)), ("status", .str "failed"),
          ("error", .str msg)] := by
  have hmsg : msg ≠ "" := routeOperation_error_ne_empty d e operation params msg hr
  obtain ⟨h1, h2⟩ := Call_dispatch_error d e operation params msg hop hr
  refine ⟨h1, ?_, ?_⟩
  · rw [h2]
    simp [ResultStore.Get, lookup_Set_self]
  · rw [Call_poll_found (d.Call e operation params).2 e' [("id", .str (GenerateUUID e.corr))]
      (GenerateUUID e.corr) (OperationResponse.mk (GenerateUUID e.corr) "failed" none msg)
      rfl (GenerateUUID_ne_empty _) (by rw [h2]; exact lookup_Set_self _ _ _)]
    simp [DAO.responseToMap, JMap.set, hmsg]

/-- C2 at a concrete request: an unregistered operation on a fresh DAO. -/
theorem C2_error_reply_and_failed_record_witness :
    (NewDAO.Call sampleEnv "/bogus/op" []).1 =
        [("error", .str "Invalid operation: /bogus/op")] ∧
      (NewDAO.Call sampleEnv "/bogus/op" []).2.store.Get (GenerateUUID sampleEnv.corr) =
        ({ ID := GenerateUUID sampleEnv.corr, Status := "failed", Result := none,
           Error := "Invalid operation: /bogus/op" }, true) ∧
      ((NewDAO.Call sampleEnv "/bogus/op" []).2.Call sampleEnv "/result/poll"
          [("id", .str (GenerateUUID sampleEnv.corr))]).1 =
        [("id", .str (GenerateUUID sampleEnv.corr)), ("status", .str "failed"),
          ("error", .str "Invalid operation: /bogus/op")] :=
  C2_error_reply_and_failed_record NewDAO sampleEnv sampleEnv "/bogus/op" []
    "Invalid operation: /bogus/op" (by decide) rfl

/-- C3, counterexample to the claim as worded: the spec's example request, a /usage/track with
`duration_ms = -1` and no `operation` parameter, is answered with the missing-parameter error
for `operation`, not with the error about `duration_ms`. -/
theorem C3_example_counterexample :
    ((-1 : ℚ) < 0) ∧
      (NewDAO.Call sampleEnv "/usage/track" [("duration_ms", .num (.finite (-1)))]).1 =
        [("error", .str "Missing required parameter: operation")] ∧
      (NewDAO.Call sampleEnv "/usage/track" [("duration_ms", .num (.finite (-1)))]).1 ≠
        [("error", .str "duration_ms must be non-negative")] := by
  refine ⟨by norm_num, rfl, ?_⟩
  have h : (NewDAO.Call sampleEnv "/usage/track" [("duration_ms", .num (.finite (-1)))]).1 =
      [("error", .str "Missing required parameter: operation")] := rfl
  rw [h]
  simp

/-- C3, with the order of validation of the code: for every /usage/track request whose `duration_ms` is a negative number,
`DAO.Call` replies with exactly `error = "duration_ms must be non-negative"` when
`params.operation` is a non-empty string, and with exactly
`error = "Missing required parameter: operation"` when `params.operation` is absent, not a
string or empty. -/
theorem C3_negative_duration_reply (d : DAO) (e : Env) (params : JMap) (x : F64)
    (hx : params.get "duration_ms" = some (.num x))
    (hneg : x = .negInf ∨ ∃ q : ℚ, q < 0 ∧ x = .finite q) :
    ((∃ s, params.get "operation" = some (.str s) ∧ s ≠ "") →
        (d.Call e "/usage/track" params).1 =
          [("error", .str "duration_ms must be non-negative")]) ∧
      ((∀ s, params.get "operation" = some (.str s) → s = "") →
        (d.Call e "/usage/track" params).1 =
          [("error", .str "Missing required parameter: operation")]) := by
  have hlt : x.ltZero = true := by
    rcases hneg with h | ⟨q, hq, h⟩
    · rw [h]; rfl
    · rw [h]; simp [F64.ltZero, hq]
  constructor
  · rintro ⟨s, hs, hne⟩
    have hr : d.routeOperation e "/usage/track" params =
        .error "duration_ms must be non-negative" := by
      simp [DAO.routeOperation, TrackUsage, hs, hx, asString, asFloat64, hne, hlt]
    exact (Call_dispatch_error d e _ params _ (by decide) hr).1
  · intro hs
    have hr : d.routeOperation e "/usage/track" params =
        .error "Missing required parameter: operation" := by
      simp only [DAO.routeOperation, TrackUsage]
      simp only [show ("/usage/track" = "/prompt/generate") = False by decide,
        show ("/usage/track" = "/template/create") = False by decide,
        show ("/usage/track" = "/template/render") = False by decide, if_false, if_true]
      cases hg : params.get "operation" with
      | none => simp [asString]
      | some v =>
        cases v with
        | str s => simp [asString, hs s hg]
        | _ => simp [asString]
    exact (Call_dispatch_error d e _ params _ (by decide) hr).1

/-- C3 at a concrete request: with `operation` given, `duration_ms = -1` is
rejected for its sign. -/
theorem C3_negative_duration_reply_witness :
    (NewDAO.Call sampleEnv "/usage/track"
        [("operation", .str "/prompt/generate"), ("duration_ms", .num (.finite (-1)))]).1 =
      [("error", .str "duration_ms must be non-negative")] :=
  (C3_negative_duration_reply NewDAO sampleEnv
    [("operation", .str "/prompt/generate"), ("duration_ms", .num (.finite (-1)))]
    (.finite (-1)) rfl (Or.inr ⟨-1, by norm_num, rfl⟩)).1
    ⟨"/prompt/generate", rfl, by decide⟩

/-- C4: for every /usage/track request whose `operation` is a non-empty string `s` and whose
`duration_ms` is a number at least 0, `DAO.Call` replies with exactly `id` (the generated id),
`status = "completed"` and a `result` with exactly the fields `tracked = true`,
`operation = s` and `timestamp`; the status is not "pending", and a poll with that id made
right afterwards returns the same reply. -/
theorem C4_track_completes_synchronously (d : DAO) (e e' : Env) (params : JMap) (s : String)
    (x : F64) (hs : params.get "operation" = some (.str s)) (hne : s ≠ "")
    (hx : params.get "duration_ms" = some (.num x))
    (hpos : x = .posInf ∨ ∃ q : ℚ, 0 ≤ q ∧ x = .finite q) :
    (d.Call e "/usage/track" params).1 =
        [("id", .str (GenerateUUID e.corr)), ("status", .str "completed"),
          ("result", .obj [("tracked", .bool true), ("operation", .str s),
            ("timestamp", .str e.now)])] ∧
      JMap.get (d.Call e "/usage/track" params).1 "status" ≠ some (.str "pending") ∧
      ((d.Call e "/usage/track" params).2.Call e' "/result/poll"
          [("id", .str (GenerateUUID e.corr))]).1 =
        (d.Call e "/usage/track" params).1 := by
  have hlt : x.ltZero = false := by
    rcases hpos with h | ⟨q, hq, h⟩
    · rw [h]; rfl
    · rw [h]; simp [F64.ltZero, hq]
  have hr : d.routeOperation e "/usage/track" params =
      .ok [("tracked", .bool true), ("operation", .str s), ("timestamp", .str e.now)] := by
    simp [DAO.routeOperation, TrackUsage, hs, hx, asString, asFloat64, hne, hlt]
  obtain ⟨h1, h2⟩ := Call_dispatch_ok d e "/usage/track" params _ (by decide) hr
  rw [if_pos rfl] at h1
  have h3 : (d.Call e "/usage/track" params).1 =
      [("id", .str (GenerateUUID e.corr)), ("status", .str "completed"),
        ("result", .obj [("tracked", .bool true), ("operation", .str s),
          ("timestamp", .str e.now)])] := by
    rw [h1]
    simp [DAO.responseToMap, JMap.set]
  refine ⟨h3, ?_, ?_⟩
  · rw [h3]
    simp [JMap.get, List.lookup]
  · rw [Call_poll_found (d.Call e "/usage/track" params).2 e'
      [("id", .str (GenerateUUID e.corr))] (GenerateUUID e.corr)
      (OperationResponse.mk (GenerateUUID e.corr) "completed"
        (some [("tracked", .bool true), ("operation", .str s), ("timestamp", .str e.now)]) "")
      rfl (GenerateUUID_ne_empty _) (by rw [h2]; exact lookup_Set_self _ _ _)]
    rw [h3]
    simp [DAO.responseToMap, JMap.set]

/-- C4 at the spec's end-to-end example: tracking /prompt/generate with a duration of 42. -/
theorem C4_track_completes_synchronously_witness :
    (NewDAO.Call sampleEnv "/usage/track"
        [("operation", .str "/prompt/generate"), ("duration_ms", .num (.finite 42))]).1 =
      [("id", .str (GenerateUUID sampleEnv.corr)), ("status", .str "completed"),
        ("result", .obj [("tracked", .bool true), ("operation", .str "/prompt/generate"),
          ("timestamp", .str "2024-01-01T00:00:00Z")])] :=
  (C4_track_completes_synchronously NewDAO sampleEnv sampleEnv
    [("operation", .str "/prompt/generate"), ("duration_ms", .num (.finite 42))]
    "/prompt/generate" (.finite 42) rfl (by decide) rfl (Or.inr ⟨42, by norm_num, rfl⟩)).1

/-- C5: a poll whose `id` parameter is absent, is not a string, or is the empty string is
answered with exactly `error = "Missing required parameter: id"`, whatever the store holds,
and leaves the store as it was. -/
theorem C5_poll_missing_id (d : DAO) (e : Env) (params : JMap)
    (h : params.get "id" = none ∨
      (∃ v, params.get "id" = some v ∧ ∀ s, v ≠ .str s) ∨
      params.get "id" = some (.str "")) :
    d.Call e "/result/poll" params =
      ([("error", .str "Missing required parameter: id")], d) := by
  have hid : asString (params.get "id") = none ∨ asString (params.get "id") = some "" := by
    rcases h with h | ⟨v, h, hv⟩ | h
    · left; rw [h]; rfl
    · left
      rw [h]
      cases v with
      | str s => exact absurd rfl (hv s)
      | _ => rfl
    · right; rw [h]; rfl
  exact Prod.ext (Call_poll_missing d e params hid) (Call_poll_store d e params)

/-- C5 at concrete requests: a poll with a numeric `id` against a store that holds a record. -/
theorem C5_poll_missing_id_witness :
    (NewDAO.Call sampleEnv "/bogus/op" []).2.Call sampleEnv "/result/poll"
        [("id", .num (.finite 7))] =
      ([("error", .str "Missing required parameter: id")],
        (NewDAO.Call sampleEnv "/bogus/op" []).2) :=
  C5_poll_missing_id _ sampleEnv [("id", .num (.finite 7))]
    (Or.inr (Or.inl ⟨.num (.finite 7), rfl, fun _ h => Value.noConfusion h⟩))

/-- C6: a poll with a non-empty id that is not a key of the store is answered with exactly
`error = "Result not found or expired: " ++ id` and leaves the store as it was; on a freshly
created DAO this holds for every non-empty id. -/
theorem C6_poll_unknown_id (d : DAO) (e : Env) (params : JMap) (id : String)
    (hid : params.get "id" = some (.str id)) (hne : id ≠ "") :
    (id ∉ d.store →
        d.Call e "/result/poll" params =
          ([("error", .str ("Result not found or expired: " ++ id))], d)) ∧
      NewDAO.Call e "/result/poll" params =
        ([("error", .str ("Result not found or expired: " ++ id))], NewDAO) := by
  constructor
  · intro hab
    exact Prod.ext (Call_poll_absent d e params id hid hne (Finmap.lookup_eq_none.mpr hab))
      (Call_poll_store d e params)
  · exact Prod.ext (Call_poll_absent NewDAO e params id hid hne (Finmap.lookup_empty id))
      (Call_poll_store NewDAO e params)

/-- C6 at a concrete request: polling a never-issued id on a store that holds another record. -/
theorem C6_poll_unknown_id_witness :
    (NewDAO.Call sampleEnv "/bogus/op" []).2.Call sampleEnv "/result/poll"
        [("id", .str "never-issued")] =
      ([("error", .str "Result not found or expired: never-issued")],
        (NewDAO.Call sampleEnv "/bogus/op" []).2) :=
  (C6_poll_unknown_id (NewDAO.Call sampleEnv "/bogus/op" []).2 sampleEnv
    [("id", .str "never-issued")] "never-issued" rfl (by decide)).1 (by
      have hs : (NewDAO.Call sampleEnv "/bogus/op" []).2.store =
          NewResultStore.Set (GenerateUUID sampleEnv.corr)
            (OperationResponse.mk (GenerateUUID sampleEnv.corr) "failed" none
              "Invalid operation: /bogus/op") := rfl
      have hg : GenerateUUID sampleEnv.corr = "00112233-4455-4677-8899-aabbccddeeff" := by decide
      rw [hs, hg]
      simp [ResultStore.Set, NewResultStore, Finmap.not_mem_empty])

/-- C7: for every operation name other than /result/poll, /prompt/generate, /template/create,
/template/render and /usage/track, and every params, `DAO.Call` replies with exactly
`error = "Invalid operation: " ++ name`. -/
theorem C7_unknown_operation (d : DAO) (e : Env) (operation : String) (params : JMap)
    (h1 : operation ≠ "/result/poll") (h2 : operation ≠ "/prompt/generate")
    (h3 : operation ≠ "/template/create") (h4 : operation ≠ "/template/render")
    (h5 : operation ≠ "/usage/track") :
    (d.Call e operation params).1 = [("error", .str ("Invalid operation: " ++ operation))] := by
  have hr : d.routeOperation e operation params =
      .error ("Invalid operation: " ++ operation) := by
    simp [DAO.routeOperation, h2, h3, h4, h5]
  exact (Call_dispatch_error d e operation params _ h1 hr).1

/-- C7 at the spec's example and at the empty name. -/
theorem C7_unknown_operation_witness :
    (NewDAO.Call sampleEnv "/bogus/op" []).1 =
        [("error", .str "Invalid operation: /bogus/op")] ∧
      (NewDAO.Call sampleEnv "" []).1 = [("error", .str "Invalid operation: ")] :=
  ⟨C7_unknown_operation NewDAO sampleEnv "/bogus/op" [] (by decide) (by decide) (by decide)
      (by decide) (by decide),
    C7_unknown_operation NewDAO sampleEnv "" [] (by decide) (by decide) (by decide)
      (by decide) (by decide)⟩

/-! ## Stored records and polling -/

/-- C8: in every store reached from the empty store by a finite sequence of `DAO.Call`
invocations, every record has status "completed" or "failed" (never empty, never "pending");
a completed record has a non-nil result and an empty error; a failed record has a non-empty
error and no result; and the record's `ID` is the key it is stored under. -/
theorem C8_stored_records_well_formed (calls : List Invocation) (key : String)
    (r : OperationResponse)
    (h : Finmap.lookup key (runCalls NewDAO calls).store = some r) :
    (r.Status = "completed" ∨ r.Status = "failed") ∧
      r.Status ≠ "" ∧ r.Status ≠ "pending" ∧
      (r.Status = "completed" → r.Result ≠ none ∧ r.Error = "") ∧
      (r.Status = "failed" → r.Error ≠ "" ∧ r.Result = none) ∧
      r.ID = key := by
  obtain ⟨_, hid, hshape⟩ := reachable_RecordShape calls key r h
  rcases hshape with ⟨hs, hres, herr⟩ | ⟨hs, herr, hres⟩
  · refine ⟨Or.inl hs, ?_, ?_, fun _ => ⟨hres, herr⟩, ?_, hid⟩
    · rw [hs]; decide
    · rw [hs]; decide
    · intro hf
      rw [hs] at hf
      exact absurd hf (by decide)
  · refine ⟨Or.inr hs, ?_, ?_, ?_, fun _ => ⟨herr, hres⟩, hid⟩
    · rw [hs]; decide
    · rw [hs]; decide
    · intro hf
      rw [hs] at hf
      exact absurd hf (by decide)

/-- C8 at a concrete run: a successful render followed by an unknown operation; the record of
the render is stored under its id, completed, with the handler's result. -/
theorem C8_stored_records_well_formed_witness :
    Finmap.lookup (GenerateUUID sampleEnv.corr)
        (runCalls NewDAO [(sampleEnv, "/template/render", [("template_id", .str "t1")]),
          ({ sampleEnv with corr := sampleEnv.tmpl }, "/bogus/op", [])]).store =
      some (OperationResponse.mk (GenerateUUID sampleEnv.corr) "completed"
        (some [("template_id", .str "t1"),
          ("rendered", .str "Rendered template t1 with variables"),
          ("variables_used", .obj [])]) "") ∧
      (("completed" = "completed" ∨ "completed" = "failed") ∧
        "completed" ≠ "" ∧ "completed" ≠ "pending" ∧
        ("completed" = "completed" →
          some [("template_id", Value.str "t1"),
            ("rendered", .str "Rendered template t1 with variables"),
            ("variables_used", .obj [])] ≠ none ∧ "" = "") ∧
        ("completed" = "failed" →
          "" ≠ "" ∧ some [("template_id", Value.str "t1"),
            ("rendered", .str "Rendered template t1 with variables"),
            ("variables_used", .obj [])] = none) ∧
        GenerateUUID sampleEnv.corr = GenerateUUID sampleEnv.corr) :=
  have hl : Finmap.lookup (GenerateUUID sampleEnv.corr)
      (runCalls NewDAO [(sampleEnv, "/template/render", [("template_id", .str "t1")]),
        ({ sampleEnv with corr := sampleEnv.tmpl }, "/bogus/op", [])]).store =
      some (OperationResponse.mk (GenerateUUID sampleEnv.corr) "completed"
        (some [("template_id", .str "t1"),
          ("rendered", .str "Rendered template t1 with variables"),
          ("variables_used", .obj [])]) "") := by
    have hs : (runCalls NewDAO [(sampleEnv, "/template/render", [("template_id", .str "t1")]),
        ({ sampleEnv with corr := sampleEnv.tmpl }, "/bogus/op", [])]).store =
        (NewResultStore.Set (GenerateUUID sampleEnv.corr)
          (OperationResponse.mk (GenerateUUID sampleEnv.corr) "completed"
            (some [("template_id", .str "t1"),
              ("rendered", .str "Rendered template t1 with variables"),
              ("variables_used", .obj [])]) "")).Set (GenerateUUID sampleEnv.tmpl)
          (OperationResponse.mk (GenerateUUID sampleEnv.tmpl) "failed" none
            "Invalid operation: /bogus/op") := rfl
    have hne : GenerateUUID sampleEnv.corr ≠ GenerateUUID sampleEnv.tmpl := by decide
    rw [hs, lookup_Set_other _ _ _ _ hne, lookup_Set_self]
  ⟨hl, C8_stored_records_well_formed _ _ _ hl⟩

/-- C9: for every store reached from the empty store and every id that is a key of it, a
poll with that id returns a mapping with an `id` and a `status` field in which `result` is
present exactly when the status is "completed" and `error` is present exactly when the status
is "failed". -/
theorem C9_poll_shape (calls : List Invocation) (e : Env) (id : String)
    (hmem : id ∈ (runCalls NewDAO calls).store) :
    ∃ (m : JMap) (status : String),
      ((runCalls NewDAO calls).Call e "/result/poll" [("id", .str id)]).1 = m ∧
        m.get "id" = some (.str id) ∧ m.get "status" = some (.str status) ∧
        (m.get "result" ≠ none ↔ status = "completed") ∧
        (m.get "error" ≠ none ↔ status = "failed") := by
  obtain ⟨r, hl⟩ := Finmap.mem_iff.mp hmem
  obtain ⟨hne, hid, hshape⟩ := reachable_RecordShape calls id r hl
  refine ⟨_, r.Status, Call_poll_found _ e [("id", .str id)] id r rfl hne hl, ?_⟩
  obtain ⟨rid, rstatus, rresult, rerror⟩ := r
  simp only at hid hshape
  subst hid
  rcases hshape with ⟨hs, hres, herr⟩ | ⟨hs, herr, hres⟩
  · subst hs herr
    cases rresult with
    | none => exact absurd rfl hres
    | some res => simp [DAO.responseToMap, JMap.set, JMap.get, List.lookup]
  · subst hs hres
    simp [DAO.responseToMap, JMap.set, JMap.get, List.lookup, herr]

/-- C9 at a concrete run: polling the id of a failed dispatch. -/
theorem C9_poll_shape_witness :
    ∃ (m : JMap) (status : String),
      ((runCalls NewDAO [(sampleEnv, "/bogus/op", [])]).Call sampleEnv "/result/poll"
          [("id", .str (GenerateUUID sampleEnv.corr))]).1 = m ∧
        m.get "id" = some (.str (GenerateUUID sampleEnv.corr)) ∧
        m.get "status" = some (.str status) ∧
        (m.get "result" ≠ none ↔ status = "completed") ∧
        (m.get "error" ≠ none ↔ status = "failed") :=
  C9_poll_shape [(sampleEnv, "/bogus/op", [])] sampleEnv (GenerateUUID sampleEnv.corr)
    (Finmap.mem_iff.mpr ⟨OperationResponse.mk (GenerateUUID sampleEnv.corr) "failed" none
      "Invalid operation: /bogus/op", lookup_Set_self NewResultStore _ _⟩)

/-- C10: a poll leaves the store unchanged, whatever its params, so the same poll made twice
in a row returns two equal responses. -/
theorem C10_poll_idempotent (d : DAO) (e e' : Env) (params : JMap) :
    (d.Call e "/result/poll" params).2 = d ∧
      ((d.Call e "/result/poll" params).2.Call e' "/result/poll" params).1 =
        (d.Call e "/result/poll" params).1 := by
  refine ⟨Call_poll_store d e params, ?_⟩
  rw [Call_poll_store d e params, Call_poll_env d e' e params]

/-! ## The result store -/

/-- The keys of the store after a write are the old keys and the written one. -/
theorem keys_Set (rs : ResultStore) (id : String) (r : OperationResponse) :
    (rs.Set id r).keys = insert id rs.keys := by
  ext k
  simp [ResultStore.Set, Finmap.mem_keys, Finmap.mem_insert]

/-- The store after one `Call`: unchanged by a poll, one write under the generated id
otherwise. -/
theorem Call_store (d : DAO) (e : Env) (operation : String) (params : JMap) :
    (operation = "/result/poll" → (d.Call e operation params).2.store = d.store) ∧
      (operation ≠ "/result/poll" →
        ∃ r : OperationResponse, r.ID = GenerateUUID e.corr ∧
          (d.Call e operation params).2.store = d.store.Set (GenerateUUID e.corr) r) := by
  constructor
  · intro hop
    rw [hop, Call_poll_store]
  · intro hop
    cases hr : d.routeOperation e operation params with
    | error msg => exact ⟨_, rfl, (Call_dispatch_error d e operation params msg hop hr).2⟩
    | ok result => exact ⟨_, rfl, (Call_dispatch_ok d e operation params result hop hr).2⟩

/-- C11: a `DAO.Call` with operation /result/poll creates no entry; a `DAO.Call` with any
other operation writes exactly one entry, under the generated id, and leaves the record under
every other key as it was; hence when the generated id is not yet a key the store gains exactly
one entry and every record it held is still there unchanged. -/
theorem C11_one_write_per_dispatch (d : DAO) (e : Env) (operation : String) (params : JMap) :
    (d.Call e "/result/poll" params).2.store = d.store ∧
      (operation ≠ "/result/poll" →
        (∃ r : OperationResponse,
          (d.Call e operation params).2.store = d.store.Set (GenerateUUID e.corr) r ∧
            Finmap.lookup (GenerateUUID e.corr) (d.Call e operation params).2.store = some r) ∧
          (∀ key, key ≠ GenerateUUID e.corr →
            Finmap.lookup key (d.Call e operation params).2.store =
              Finmap.lookup key d.store) ∧
          (GenerateUUID e.corr ∉ d.store →
            (d.Call e operation params).2.store.keys.card = d.store.keys.card + 1 ∧
              ∀ key r, Finmap.lookup key d.store = some r →
                Finmap.lookup key (d.Call e operation params).2.store = some r)) := by
  refine ⟨(Call_store d e "/result/poll" params).1 rfl, ?_⟩
  intro hop
  obtain ⟨r, _, hs⟩ := (Call_store d e operation params).2 hop
  refine ⟨⟨r, hs, ?_⟩, ?_, ?_⟩
  · rw [hs]; exact lookup_Set_self _ _ _
  · intro key hk
    rw [hs]; exact lookup_Set_other _ _ _ _ hk
  · intro hfresh
    constructor
    · rw [hs, keys_Set]
      exact Finset.card_insert_of_not_mem (fun h => hfresh (Finmap.mem_keys.mp h))
    · intro key r' hl
      have hk : key ≠ GenerateUUID e.corr := by
        intro h
        rw [h] at hl
        exact hfresh (Finmap.mem_of_lookup_eq_some hl)
      rw [hs, lookup_Set_other _ _ _ _ hk]
      exact hl

/-- C11 at a concrete call: an unknown operation on a fresh DAO leaves exactly one entry. -/
theorem C11_one_write_per_dispatch_witness :
    (NewDAO.Call sampleEnv "/bogus/op" []).2.store.keys.card = NewDAO.store.keys.card + 1 ∧
      ∀ key r, Finmap.lookup key NewDAO.store = some r →
        Finmap.lookup key (NewDAO.Call sampleEnv "/bogus/op" []).2.store = some r :=
  ((C11_one_write_per_dispatch NewDAO sampleEnv "/bogus/op" []).2 (by decide)).2.2
    Finmap.not_mem_empty

/-- C13: in sequential use, `Get(id)` after `Set(id, r)` returns `(r, true)`; for a different
id the `Get` after the `Set` returns what it returned before; and a later `Set` on the same id
replaces the record. -/
theorem C13_set_then_get (rs : ResultStore) (id id' : String) (r r' : OperationResponse) :
    (rs.Set id r).Get id = (r, true) ∧
      (id' ≠ id → (rs.Set id r).Get id' = rs.Get id') ∧
      ((rs.Set id r).Set id r').Get id = (r', true) ∧
      (rs.Set id r).Set id r' = rs.Set id r' := by
  refine ⟨?_, ?_, ?_, ?_⟩
  · simp [ResultStore.Get, lookup_Set_self]
  · intro h
    simp [ResultStore.Get, lookup_Set_other _ _ _ _ h]
  · simp [ResultStore.Get, lookup_Set_self]
  · exact Finmap.insert_insert rs

/-- C13 at concrete ids: a write under "a" does not change what is read under "b". -/
theorem C13_set_then_get_witness :
    (NewResultStore.Set "a" OperationResponse.zero).Get "b" = NewResultStore.Get "b" :=
  (C13_set_then_get NewResultStore "a" "b" OperationResponse.zero
    OperationResponse.zero).2.1 (by decide)

/-- C17: in sequential use, `Exists(id)` is the boolean returned by `Get(id)`; after
`Delete(id)`, `Get(id)` reports not found and `Exists(id)` is false; `Delete(id)` leaves
`Get(id')` unchanged for every other id; and `Delete` of an absent id leaves the store
unchanged. -/
theorem C17_delete_and_exists (rs : ResultStore) (id id' : String) :
    rs.Exists id = (rs.Get id).2 ∧
      (rs.Delete id).Get id = (OperationResponse.zero, false) ∧
      (rs.Delete id).Exists id = false ∧
      (id' ≠ id → (rs.Delete id).Get id' = rs.Get id') ∧
      (id ∉ rs → rs.Delete id = rs) := by
  refine ⟨?_, ?_, ?_, ?_, ?_⟩
  · unfold ResultStore.Exists ResultStore.Get
    cases Finmap.lookup id rs <;> rfl
  · simp [ResultStore.Get, ResultStore.Delete, Finmap.lookup_erase]
  · simp [ResultStore.Exists, ResultStore.Delete, Finmap.lookup_erase]
  · intro h
    simp [ResultStore.Get, ResultStore.Delete, Finmap.lookup_erase_ne h]
  · intro h
    apply Finmap.ext_lookup
    intro k
    by_cases hk : k = id
    · rw [hk, ResultStore.Delete, Finmap.lookup_erase]
      exact (Finmap.lookup_eq_none.mpr h).symm
    · rw [ResultStore.Delete, Finmap.lookup_erase_ne hk]

/-- C17 at concrete ids: deleting "a" keeps the record under "b", and deleting from the empty
store changes nothing. -/
theorem C17_delete_and_exists_witness :
    ((NewResultStore.Set "b" OperationResponse.zero).Delete "a").Get "b" =
        (NewResultStore.Set "b" OperationResponse.zero).Get "b" ∧
      NewResultStore.Delete "a" = NewResultStore :=
  ⟨(C17_delete_and_exists (NewResultStore.Set "b" OperationResponse.zero) "a" "b").2.2.2.1
      (by decide),
    (C17_delete_and_exists NewResultStore "a" "a").2.2.2.2 Finmap.not_mem_empty⟩

/-! ## Dispatches followed by polls -/

/-- The dispatch branch stores `writtenRecord` under the generated id. -/
theorem Call_dispatch_store (d : DAO) (e : Env) (operation : String) (params : JMap)
    (hop : operation ≠ "/result/poll") :
    (d.Call e operation params).2.store =
      d.store.Set (GenerateUUID e.corr) (writtenRecord e operation params) := by
  have hd : d.routeOperation e operation params = NewDAO.routeOperation e operation params :=
    rfl
  unfold writtenRecord
  cases hr : NewDAO.routeOperation e operation params with
  | error msg => exact (Call_dispatch_error d e operation params msg hop (hd.trans hr)).2
  | ok result => exact (Call_dispatch_ok d e operation params result hop (hd.trans hr)).2

/-- A sequence of polls leaves the DAO as it was. -/
theorem runCalls_polls (polls : List Invocation)
    (hpolls : ∀ c ∈ polls, c.2.1 = "/result/poll") (d : DAO) : runCalls d polls = d := by
  induction polls with
  | nil => rfl
  | cons c rest ih =>
    obtain ⟨e, operation, params⟩ := c
    have hop : operation = "/result/poll" := hpolls _ (List.mem_cons_self _ _)
    have hrest : ∀ c ∈ rest, c.2.1 = "/result/poll" :=
      fun c hc => hpolls c (List.mem_cons_of_mem _ hc)
    show runCalls (d.Call e operation params).2 rest = d
    rw [hop, Call_poll_store, ih hrest]

/-- A sequence of calls leaves alone the record under a key that none of them generates. -/
theorem lookup_runCalls_other (calls : List Invocation) (key : String)
    (hkey : ∀ c ∈ calls, key ≠ GenerateUUID c.1.corr) (d : DAO) :
    Finmap.lookup key (runCalls d calls).store = Finmap.lookup key d.store := by
  induction calls generalizing d with
  | nil => rfl
  | cons c rest ih =>
    obtain ⟨e, operation, params⟩ := c
    have hne : key ≠ GenerateUUID e.corr := hkey _ (List.mem_cons_self _ _)
    have hrest : ∀ c ∈ rest, key ≠ GenerateUUID c.1.corr :=
      fun c hc => hkey c (List.mem_cons_of_mem _ hc)
    show Finmap.lookup key (runCalls (d.Call e operation params).2 rest).store = _
    rw [ih hrest]
    by_cases hop : operation = "/result/poll"
    · rw [hop, Call_poll_store]
    · rw [Call_dispatch_store d e operation params hop, lookup_Set_other _ _ _ _ hne]

/-- After dispatches with pairwise distinct ids, the record under the id of the k-th one is
the record that this dispatch wrote. -/
theorem lookup_runCalls_kth (calls : List Invocation)
    (hdisp : ∀ c ∈ calls, c.2.1 ≠ "/result/poll")
    (hdistinct : (calls.map (fun c => GenerateUUID c.1.corr)).Nodup)
    (k : Nat) (e : Env) (operation : String) (params : JMap)
    (hk : calls[k]? = some (e, operation, params)) (d : DAO) :
    Finmap.lookup (GenerateUUID e.corr) (runCalls d calls).store =
      some (writtenRecord e operation params) := by
  induction calls generalizing d k with
  | nil => simp at hk
  | cons c rest ih =>
    obtain ⟨e0, operation0, params0⟩ := c
    rw [List.map_cons, List.nodup_cons] at hdistinct
    have hrest : ∀ c ∈ rest, c.2.1 ≠ "/result/poll" :=
      fun c hc => hdisp c (List.mem_cons_of_mem _ hc)
    show Finmap.lookup _ (runCalls (d.Call e0 operation0 params0).2 rest).store = _
    cases k with
    | zero =>
      simp only [List.getElem?_cons_zero, Option.some.injEq, Prod.mk.injEq] at hk
      obtain ⟨he, hop, hp⟩ := hk
      subst he hop hp
      have hfresh : ∀ c ∈ rest, GenerateUUID e0.corr ≠ GenerateUUID c.1.corr := by
        intro c hc heq
        exact hdistinct.1 (List.mem_map.mpr ⟨c, hc, heq.symm⟩)
      rw [lookup_runCalls_other rest _ hfresh,
        Call_dispatch_store d e0 operation0 params0 (hdisp _ (List.mem_cons_self _ _)),
        lookup_Set_self]
    | succ j =>
      rw [List.getElem?_cons_succ] at hk
      exact ih hrest hdistinct.2 j hk _

/-- C12: after any finite sequence of non-poll `DAO.Call` invocations on an initially empty
store whose generated ids are pairwise distinct, followed by any sequence of polls, polling
the id of the k-th dispatch returns the outcome of that dispatch: status "completed" with its
handler result, or status "failed" with its error message. -/
theorem C12_poll_returns_own_outcome (calls polls : List Invocation) (k : Nat) (e e' : Env)
    (operation : String) (params : JMap)
    (hdisp : ∀ c ∈ calls, c.2.1 ≠ "/result/poll")
    (hpolls : ∀ c ∈ polls, c.2.1 = "/result/poll")
    (hdistinct : (calls.map (fun c => GenerateUUID c.1.corr)).Nodup)
    (hk : calls[k]? = some (e, operation, params)) :
    (∀ r, NewDAO.routeOperation e operation params = .ok r →
        ((runCalls (runCalls NewDAO calls) polls).Call e' "/result/poll"
            [("id", .str (GenerateUUID e.corr))]).1 =
          [("id", .str (GenerateUUID e.corr)), ("status", .str "completed"),
            ("result", .obj r)]) ∧
      (∀ msg, NewDAO.routeOperation e operation params = .error msg →
        ((runCalls (runCalls NewDAO calls) polls).Call e' "/result/poll"
            [("id", .str (GenerateUUID e.corr))]).1 =
          [("id", .str (GenerateUUID e.corr)), ("status", .str "failed"),
            ("error", .str msg)]) := by
  have hl := lookup_runCalls_kth calls hdisp hdistinct k e operation params hk NewDAO
  rw [runCalls_polls polls hpolls]
  rw [Call_poll_found (runCalls NewDAO calls) e' [("id", .str (GenerateUUID e.corr))]
    (GenerateUUID e.corr) (writtenRecord e operation params) rfl (GenerateUUID_ne_empty _) hl]
  constructor
  · intro r hr
    simp [writtenRecord, hr, DAO.responseToMap, JMap.set]
  · intro msg hr
    have hmsg : msg ≠ "" := routeOperation_error_ne_empty NewDAO e operation params msg hr
    simp [writtenRecord, hr, DAO.responseToMap, JMap.set, hmsg]

/-- C12 at a concrete run: a render, then an unknown operation, then a poll without id; the
poll of the first id still returns the render's result. -/
theorem C12_poll_returns_own_outcome_witness :
    ((runCalls (runCalls NewDAO
          [(sampleEnv, "/template/render", [("template_id", .str "t1")]),
            ({ sampleEnv with corr := sampleEnv.tmpl }, "/bogus/op", [])])
          [(sampleEnv, "/result/poll", [])]).Call sampleEnv "/result/poll"
        [("id", .str (GenerateUUID sampleEnv.corr))]).1 =
      [("id", .str (GenerateUUID sampleEnv.corr)), ("status", .str "completed"),
        ("result", .obj [("template_id", .str "t1"),
          ("rendered", .str "Rendered template t1 with variables"),
          ("variables_used", .obj [])])] :=
  (C12_poll_returns_own_outcome
    [(sampleEnv, "/template/render", [("template_id", .str "t1")]),
      ({ sampleEnv with corr := sampleEnv.tmpl }, "/bogus/op", [])]
    [(sampleEnv, "/result/poll", [])] 0 sampleEnv sampleEnv "/template/render"
    [("template_id", .str "t1")]
    (by intro c hc; simp at hc; rcases hc with h | h <;> (rw [h]; decide))
    (by intro c hc; simp at hc; rw [hc])
    (by decide) rfl).1 _ rfl

/-! ## Correlation identifiers -/

/-- The characters of the identifier on the secure-random path. -/
theorem GenerateUUID_secure_chars (r : Fin 16 → Fin 256) (unix unixNano : Int) :
    (GenerateUUID ⟨some r, unix, unixNano⟩).toList =
      [hexDigit (setVersionVariant r 0 / 16 % 16), hexDigit (setVersionVariant r 0 % 16),
        hexDigit (setVersionVariant r 1 / 16 % 16), hexDigit (setVersionVariant r 1 % 16),
        hexDigit (setVersionVariant r 2 / 16 % 16), hexDigit (setVersionVariant r 2 % 16),
        hexDigit (setVersionVariant r 3 / 16 % 16), hexDigit (setVersionVariant r 3 % 16),
        '-',
        hexDigit (setVersionVariant r 4 / 16 % 16), hexDigit (setVersionVariant r 4 % 16),
        hexDigit (setVersionVariant r 5 / 16 % 16), hexDigit (setVersionVariant r 5 % 16),
        '-',
        hexDigit (setVersionVariant r 6 / 16 % 16), hexDigit (setVersionVariant r 6 % 16),
        hexDigit (setVersionVariant r 7 / 16 % 16), hexDigit (setVersionVariant r 7 % 16),
        '-',
        hexDigit (setVersionVariant r 8 / 16 % 16), hexDigit (setVersionVariant r 8 % 16),
        hexDigit (setVersionVariant r 9 / 16 % 16), hexDigit (setVersionVariant r 9 % 16),
        '-',
        hexDigit (setVersionVariant r 10 / 16 % 16), hexDigit (setVersionVariant r 10 % 16),
        hexDigit (setVersionVariant r 11 / 16 % 16), hexDigit (setVersionVariant r 11 % 16),
        hexDigit (setVersionVariant r 12 / 16 % 16), hexDigit (setVersionVariant r 12 % 16),
        hexDigit (setVersionVariant r 13 / 16 % 16), hexDigit (setVersionVariant r 13 % 16),
        hexDigit (setVersionVariant r 14 / 16 % 16), hexDigit (setVersionVariant r 14 % 16),
        hexDigit (setVersionVariant r 15 / 16 % 16), hexDigit (setVersionVariant r 15 % 16)] := rfl

/-- Every hexadecimal digit written by `hexDigit` is a lowercase one. -/
theorem hexDigit_isLowerHex (n : Nat) (h : n < 16) : isLowerHex (hexDigit n) = true := by
  have key : ∀ m : Fin 16, isLowerHex (hexDigit m.val) = true := by decide
  exact key ⟨n, h⟩

/-- Distinct nibbles are written as distinct digits. -/
theorem hexDigit_injective (a b : Nat) (ha : a < 16) (hb : b < 16)
    (h : hexDigit a = hexDigit b) : a = b := by
  have key : ∀ m n : Fin 16, hexDigit m.val = hexDigit n.val → m = n := by decide
  exact congrArg Fin.val (key ⟨a, ha⟩ ⟨b, hb⟩ h)

/-- A byte is determined by its two hexadecimal digits. -/
theorem byte_eq_of_hexDigits (x y : Nat) (hx : x < 256) (hy : y < 256)
    (h1 : hexDigit (x / 16 % 16) = hexDigit (y / 16 % 16))
    (h2 : hexDigit (x % 16) = hexDigit (y % 16)) : x = y := by
  have e1 := hexDigit_injective _ _ (Nat.mod_lt _ (by decide)) (Nat.mod_lt _ (by decide)) h1
  have e2 := hexDigit_injective _ _ (Nat.mod_lt _ (by decide)) (Nat.mod_lt _ (by decide)) h2
  omega

set_option maxRecDepth 20000 in
/-- The byte `(x & 0x0f) | 0x40` has high nibble 4 and the low nibble of `x`. -/
theorem version_byte (x : Fin 256) :
    ((x.val &&& 0x0f) ||| 0x40) / 16 % 16 = 4 ∧ ((x.val &&& 0x0f) ||| 0x40) % 16 = x.val % 16 ∧
      ((x.val &&& 0x0f) ||| 0x40) < 256 := by
  revert x
  decide

set_option maxRecDepth 20000 in
/-- The byte `(x & 0x3f) | 0x80` has a high nibble from 8 to 11 and the low six bits of `x`. -/
theorem variant_byte (x : Fin 256) :
    (8 ≤ ((x.val &&& 0x3f) ||| 0x80) / 16 % 16 ∧ ((x.val &&& 0x3f) ||| 0x80) / 16 % 16 ≤ 11) ∧
      ((x.val &&& 0x3f) ||| 0x80) % 64 = x.val % 64 ∧ ((x.val &&& 0x3f) ||| 0x80) < 256 := by
  revert x
  decide

/-- The digits of the nibbles 8 to 11. -/
theorem hexDigit_variant (n : Nat) (h1 : 8 ≤ n) (h2 : n ≤ 11) :
    hexDigit n = '8' ∨ hexDigit n = '9' ∨ hexDigit n = 'a' ∨ hexDigit n = 'b' := by
  have h : n = 8 ∨ n = 9 ∨ n = 10 ∨ n = 11 := by omega
  rcases h with h | h | h | h <;> subst h
  · exact Or.inl (by decide)
  · exact Or.inr (Or.inl (by decide))
  · exact Or.inr (Or.inr (Or.inl (by decide)))
  · exact Or.inr (Or.inr (Or.inr (by decide)))

/-- C14: for every 16 bytes delivered by the secure random source, `GenerateUUID` returns a
string of exactly 36 characters with a hyphen at positions 8, 13, 18 and 23 and a lowercase
hexadecimal digit at every other position, whose character at position 14 is `4` and whose
character at position 19 is one of `8`, `9`, `a`, `b`. -/
theorem C14_secure_uuid_format (r : Fin 16 → Fin 256) (unix unixNano : Int) :
    (GenerateUUID ⟨some r, unix, unixNano⟩).length = 36 ∧
      (GenerateUUID ⟨some r, unix, unixNano⟩).toList[8]? = some '-' ∧
      (GenerateUUID ⟨some r, unix, unixNano⟩).toList[13]? = some '-' ∧
      (GenerateUUID ⟨some r, unix, unixNano⟩).toList[18]? = some '-' ∧
      (GenerateUUID ⟨some r, unix, unixNano⟩).toList[23]? = some '-' ∧
      (∀ i, i < 36 → i ≠ 8 → i ≠ 13 → i ≠ 18 → i ≠ 23 →
        ∃ c, (GenerateUUID ⟨some r, unix, unixNano⟩).toList[i]? = some c ∧
          isLowerHex c = true) ∧
      (GenerateUUID ⟨some r, unix, unixNano⟩).toList[14]? = some '4' ∧
      ∃ c, (GenerateUUID ⟨some r, unix, unixNano⟩).toList[19]? = some c ∧
        (c = '8' ∨ c = '9' ∨ c = 'a' ∨ c = 'b') := by
  have hlen : (GenerateUUID ⟨some r, unix, unixNano⟩).length = 36 := by
    show (GenerateUUID ⟨some r, unix, unixNano⟩).toList.length = 36
    rw [GenerateUUID_secure_chars]
    rfl
  rw [GenerateUUID_secure_chars]
  refine ⟨hlen, rfl, rfl, rfl, rfl, ?_, ?_, ?_⟩
  · intro i hi h8 h13 h18 h23
    interval_cases i <;>
      first
      | exact absurd rfl h8
      | exact absurd rfl h13
      | exact absurd rfl h18
      | exact absurd rfl h23
      | exact ⟨_, rfl, hexDigit_isLowerHex _ (Nat.mod_lt _ (by decide))⟩
  · have h4 : setVersionVariant r 6 / 16 % 16 = 4 := (version_byte (r 6)).1
    show some (hexDigit (setVersionVariant r 6 / 16 % 16)) = some '4'
    rw [h4]
    rfl
  · have h8 := (variant_byte (r 8)).1
    exact ⟨hexDigit (setVersionVariant r 8 / 16 % 16), rfl, hexDigit_variant _ h8.1 h8.2⟩

/-- C14 at the sample bytes: the first character of the identifier is a hexadecimal digit. -/
theorem C14_secure_uuid_format_witness :
    ∃ c, (GenerateUUID ⟨some sampleBytes, 0, 0⟩).toList[0]? = some c ∧ isLowerHex c = true :=
  (C14_secure_uuid_format sampleBytes 0 0).2.2.2.2.2.1 0 (by decide) (by decide) (by decide)
    (by decide) (by decide)

/-- C18: on the secure-random path, two 16-byte inputs that give the same identifier agree on
every byte other than bytes 6 and 8, on the low nibble of byte 6 and on the low six bits of
byte 8. -/
theorem C18_secure_uuid_keeps_free_bits (r r' : Fin 16 → Fin 256)
    (unix unixNano unix' unixNano' : Int)
    (h : GenerateUUID ⟨some r, unix, unixNano⟩ = GenerateUUID ⟨some r', unix', unixNano'⟩) :
    (∀ i : Fin 16, i.val ≠ 6 → i.val ≠ 8 → r i = r' i) ∧
      (r 6).val % 16 = (r' 6).val % 16 ∧ (r 8).val % 64 = (r' 8).val % 64 := by
  have hd := congrArg String.toList h
  rw [GenerateUUID_secure_chars, GenerateUUID_secure_chars] at hd
  simp only [List.cons.injEq, and_true, true_and] at hd
  obtain ⟨h0a, h0b, h1a, h1b, h2a, h2b, h3a, h3b, h4a, h4b, h5a, h5b, h6a, h6b, h7a, h7b, h8a, h8b, h9a, h9b, h10a, h10b, h11a, h11b, h12a, h12b, h13a, h13b, h14a, h14b, h15a, h15b⟩ := hd
  have hbyte : ∀ i : Fin 16, i.val ≠ 6 → i.val ≠ 8 →
      hexDigit ((r i).val / 16 % 16) = hexDigit ((r' i).val / 16 % 16) →
      hexDigit ((r i).val % 16) = hexDigit ((r' i).val % 16) → r i = r' i :=
    fun i _ _ ha hb => Fin.ext (byte_eq_of_hexDigits _ _ (r i).isLt (r' i).isLt ha hb)
  refine ⟨?_, ?_, ?_⟩
  · intro i h6 h8
    fin_cases i
    · exact hbyte 0 h6 h8 h0a h0b
    · exact hbyte 1 h6 h8 h1a h1b
    · exact hbyte 2 h6 h8 h2a h2b
    · exact hbyte 3 h6 h8 h3a h3b
    · exact hbyte 4 h6 h8 h4a h4b
    · exact hbyte 5 h6 h8 h5a h5b
    · exact absurd rfl h6
    · exact hbyte 7 h6 h8 h7a h7b
    · exact absurd rfl h8
    · exact hbyte 9 h6 h8 h9a h9b
    · exact hbyte 10 h6 h8 h10a h10b
    · exact hbyte 11 h6 h8 h11a h11b
    · exact hbyte 12 h6 h8 h12a h12b
    · exact hbyte 13 h6 h8 h13a h13b
    · exact hbyte 14 h6 h8 h14a h14b
    · exact hbyte 15 h6 h8 h15a h15b
  · have e := hexDigit_injective _ _ (Nat.mod_lt _ (by decide)) (Nat.mod_lt _ (by decide)) h6b
    have v := (version_byte (r 6)).2.1
    have v' := (version_byte (r' 6)).2.1
    have e' : ((r 6).val &&& 0x0f ||| 0x40) % 16 = ((r' 6).val &&& 0x0f ||| 0x40) % 16 := e
    omega
  · have v := (variant_byte (r 8)).2
    have v' := (variant_byte (r' 8)).2
    have e : ((r 8).val &&& 0x3f ||| 0x80) = ((r' 8).val &&& 0x3f ||| 0x80) :=
      byte_eq_of_hexDigits _ _ v.2 v'.2 h8a h8b
    omega

/-- C18 at two inputs that differ only in the overwritten bits: they give the same identifier,
and agree everywhere else. -/
theorem C18_secure_uuid_keeps_free_bits_witness :
    GenerateUUID ⟨some zeroBytes, 0, 0⟩ = GenerateUUID ⟨some fixedBitsBytes, 0, 0⟩ ∧
      ((∀ i : Fin 16, i.val ≠ 6 → i.val ≠ 8 → zeroBytes i = fixedBitsBytes i) ∧
        (zeroBytes 6).val % 16 = (fixedBitsBytes 6).val % 16 ∧
        (zeroBytes 8).val % 64 = (fixedBitsBytes 8).val % 64) :=
  ⟨by decide, C18_secure_uuid_keeps_free_bits zeroBytes fixedBitsBytes 0 0 0 0 (by decide)⟩

/-- The digits are written in front of the accumulator, so the result is at least as long. -/
theorem hexNatAux_length_ge (fuel n : Nat) (acc : List Char) :
    acc.length ≤ (hexNatAux fuel n acc).length := by
  induction fuel generalizing n acc with
  | zero => exact Nat.le_refl _
  | succ f ih =>
    unfold hexNatAux
    split_ifs
    · simp
    · exact Nat.le_trans (by simp) (ih (n / 16) (hexDigit (n % 16) :: acc))

/-- With enough fuel, a number of at least `16 ^ k` is written with more than `k` digits. -/
theorem hexNatAux_length_digits (k : Nat) :
    ∀ (fuel n : Nat) (acc : List Char), 16 ^ k ≤ n → k < fuel →
      acc.length + k + 1 ≤ (hexNatAux fuel n acc).length := by
  induction k with
  | zero =>
    intro fuel n acc _ hf
    obtain ⟨f, rfl⟩ : ∃ f, fuel = f + 1 := ⟨fuel - 1, by omega⟩
    unfold hexNatAux
    split_ifs
    · simp
    · have h := hexNatAux_length_ge f (n / 16) (hexDigit (n % 16) :: acc)
      simp only [List.length_cons] at h
      omega
  | succ j ih =>
    intro fuel n acc hn hf
    obtain ⟨f, rfl⟩ : ∃ f, fuel = f + 1 := ⟨fuel - 1, by omega⟩
    have hdiv : 16 ^ j ≤ n / 16 := by
      rw [Nat.le_div_iff_mul_le (by decide)]
      rw [Nat.pow_succ] at hn
      exact hn
    have hpos : 0 < 16 ^ j := Nat.pow_pos (by decide)
    unfold hexNatAux
    rw [if_neg (by omega)]
    have h := ih f (n / 16) (hexDigit (n % 16) :: acc) hdiv (by omega)
    simp only [List.length_cons] at h
    omega

/-- The width of `fmtHexInt` is a minimum: the text has at least `width` characters and at
least as many as the number has digits. -/
theorem fmtHexInt_length (width : Nat) (n : Int) :
    width ≤ (fmtHexInt width n).length ∧ (hexNat n.natAbs).length ≤ (fmtHexInt width n).length := by
  unfold fmtHexInt
  split_ifs <;> simp <;> omega

/-- On the fallback path, a nanosecond reading of at least `16 ^ 12` (anything later than
four days after the epoch) gives an identifier of more than 36 characters. -/
theorem GenerateUUID_fallback_length (unix unixNano : Int) (h : 16 ^ 12 ≤ unixNano) :
    36 < (GenerateUUID ⟨none, unix, unixNano⟩).length := by
  have h1 := (fmtHexInt_length 8 unix).1
  have h2 := (fmtHexInt_length 12 unixNano).2
  have hn : 16 ^ 12 ≤ unixNano.natAbs := by omega
  have hfuel : 12 < unixNano.natAbs + 1 := by
    have : (12 : Nat) < 16 ^ 12 := by decide
    omega
  have h3 := hexNatAux_length_digits 12 (unixNano.natAbs + 1) unixNano.natAbs [] hn hfuel
  have h4 : (hexNat unixNano.natAbs).length =
      (hexNatAux (unixNano.natAbs + 1) unixNano.natAbs []).length := rfl
  have h5 : "-0000-4000-8000-".toList.length = 16 := by decide
  show (fmtHexInt 8 unix ++ "-0000-4000-8000-".toList ++ fmtHexInt 12 unixNano).length > 36
  rw [List.length_append, List.length_append, h5]
  simp only [List.length_nil] at h3
  omega

/-- C15, the code at a present-day clock reading: with the secure random source failing, the
identifier built from 1700000000 seconds and 1700000000123456789 nanoseconds has 40 characters,
its last group being 16 digits long. -/
theorem C15_fallback_uuid_has_40_characters :
    GenerateUUID ⟨none, 1700000000, 1700000000123456789⟩ =
        "6553f100-0000-4000-8000-17979cfe3d85cd15" ∧
      (GenerateUUID ⟨none, 1700000000, 1700000000123456789⟩).length = 40 ∧
      (GenerateUUID ⟨none, 1700000000, 1700000000123456789⟩).length ≠ 36 := by
  have h : GenerateUUID ⟨none, 1700000000, 1700000000123456789⟩ =
      "6553f100-0000-4000-8000-17979cfe3d85cd15" := by decide
  rw [h]
  exact ⟨rfl, by decide, by decide⟩

/-! ## Handlers -/

/-- The UTF-8 length of a string made of one character repeated. -/
theorem utf8ByteSize_replicate (n : Nat) (c : Char) :
    (String.mk (List.replicate n c)).utf8ByteSize = n * c.utf8Size := by
  induction n with
  | zero => rw [Nat.zero_mul]; rfl
  | succ k ih =>
    rw [String.utf8ByteSize_mk] at ih ⊢
    rw [List.replicate_succ, String.utf8Len_cons, ih, Nat.add_mul, Nat.one_mul]

/-- C19, the code at a text of 5001 characters: the text made of 5001 letters `é` has between
1 and 10000 characters, yet `ProcessPrompt` rejects it, because its UTF-8 encoding has 10002
bytes and the code compares the byte length with 10000. -/
theorem C19_rejects_5001_two_byte_characters :
    (String.mk (List.replicate 5001 'é')).length = 5001 ∧
      (String.mk (List.replicate 5001 'é')).utf8ByteSize = 10002 ∧
      ProcessPrompt sampleEnv [("text", .str (String.mk (List.replicate 5001 'é')))] =
        .error "Text must be between 1 and 10000 characters" := by
  have hsize : (String.mk (List.replicate 5001 'é')).utf8ByteSize = 10002 := by
    rw [utf8ByteSize_replicate]
    decide
  have hne : String.mk (List.replicate 5001 'é') ≠ "" := by
    intro h
    have hl : (List.replicate 5001 'é').length = 0 := congrArg String.length h
    rw [List.length_replicate] at hl
    exact absurd hl (by decide)
  have hlen : (String.mk (List.replicate 5001 'é')).length = 5001 :=
    List.length_replicate _ _
  refine ⟨hlen, hsize, ?_⟩
  have hget : JMap.get [("text", Value.str (String.mk (List.replicate 5001 'é')))] "text" =
      some (.str (String.mk (List.replicate 5001 'é'))) := by
    simp [JMap.get, List.lookup]
  unfold ProcessPrompt
  rw [hget]
  simp only [asString]
  rw [if_neg hne, hsize]
  rfl

/-- The type assertion to a string succeeds exactly on string values. -/
theorem asString_cases (v : Option Value) :
    (∃ s, v = some (.str s) ∧ asString v = some s) ∨
      ((∀ s, v ≠ some (.str s)) ∧ asString v = none) := by
  cases v with
  | none => exact Or.inr ⟨fun _ h => Option.noConfusion h, rfl⟩
  | some x =>
    cases x with
    | str s => exact Or.inl ⟨s, rfl, rfl⟩
    | _ => exact Or.inr ⟨fun _ h => Value.noConfusion (Option.some.inj h), rfl⟩

/-- The character class of the name pattern is the ASCII letters, the digits and the hyphen. -/
theorem isNameChar_iff (c : Char) :
    isNameChar c = true ↔ (c.isAlphanum = true ∨ c = '-') := by
  have ha : ('a' : Char).val = 97 := by decide
  have hz : ('z' : Char).val = 122 := by decide
  have hA : ('A' : Char).val = 65 := by decide
  have hZ : ('Z' : Char).val = 90 := by decide
  have h0 : ('0' : Char).val = 48 := by decide
  have h9 : ('9' : Char).val = 57 := by decide
  simp only [isNameChar, Char.isAlphanum, Char.isAlpha, Char.isUpper, Char.isLower,
    Char.isDigit, Bool.or_eq_true, Bool.and_eq_true, decide_eq_true_eq, Char.le_def,
    ha, hz, hA, hZ, h0, h9, ge_iff_le]
  tauto

/-- A non-empty name matches the pattern exactly when all its characters are in the class. -/
theorem validName_iff (name : String) (hne : name ≠ "") :
    validName name = true ↔ ∀ c ∈ name.toList, c.isAlphanum = true ∨ c = '-' := by
  have hl : name.toList ≠ [] := by
    intro h
    apply hne
    cases name with
    | mk data => simp only [String.toList] at h; rw [h]
  unfold validName
  cases hd : name.toList with
  | nil => exact absurd hd hl
  | cons a rest =>
    simp only [List.isEmpty_cons, Bool.not_false, Bool.true_and, List.all_eq_true]
    constructor
    · intro h c hc
      exact (isNameChar_iff c).mp (h c hc)
    · intro h c hc
      exact (isNameChar_iff c).mpr (h c hc)

/-- The four outcomes of `CreateTemplate`, in the order in which the code tests for them. -/
theorem CreateTemplate_cases (e : Env) (params : JMap) :
    ((∀ name, params.get "name" = some (.str name) → name = "") →
        CreateTemplate e params = .error "Missing required parameter: name") ∧
      (∀ name, params.get "name" = some (.str name) → name ≠ "" →
        (∀ pattern, params.get "pattern" = some (.str pattern) → pattern = "") →
        CreateTemplate e params = .error "Missing required parameter: pattern") ∧
      (∀ name pattern, params.get "name" = some (.str name) → name ≠ "" →
        params.get "pattern" = some (.str pattern) → pattern ≠ "" →
        ¬ (∀ c ∈ name.toList, c.isAlphanum = true ∨ c = '-') →
        CreateTemplate e params =
          .error "Invalid template name: must be alphanumeric with hyphens") ∧
      (∀ name pattern, params.get "name" = some (.str name) → name ≠ "" →
        params.get "pattern" = some (.str pattern) → pattern ≠ "" →
        (∀ c ∈ name.toList, c.isAlphanum = true ∨ c = '-') →
        CreateTemplate e params =
          .ok [("id", .str (GenerateUUID e.tmpl)), ("name", .str name),
            ("pattern", .str pattern),
            ("variables", asSliceOrNil (params.get "variables"))]) := by
  have hname : ∀ name, params.get "name" = some (.str name) → name ≠ "" →
      CreateTemplate e params =
        (match asString (params.get "pattern") with
        | none => .error "Missing required parameter: pattern"
        | some pattern =>
          if pattern = "" then .error "Missing required parameter: pattern"
          else if !validName name then
            .error "Invalid template name: must be alphanumeric with hyphens"
          else
            .ok [("id", .str (GenerateUUID e.tmpl)), ("name", .str name),
              ("pattern", .str pattern),
              ("variables", asSliceOrNil (params.get "variables"))]) := by
    intro name hn hne
    unfold CreateTemplate
    rw [hn]
    simp only [asString, if_neg hne]
  refine ⟨?_, ?_, ?_, ?_⟩
  · intro h
    unfold CreateTemplate
    rcases asString_cases (params.get "name") with ⟨n, hn, hs⟩ | ⟨_, hs⟩
    · rw [hs]
      simp only [if_pos (h n hn)]
    · rw [hs]
  · intro name hn hne h
    rw [hname name hn hne]
    rcases asString_cases (params.get "pattern") with ⟨p, hp, hs⟩ | ⟨_, hs⟩
    · rw [hs]
      simp only [if_pos (h p hp)]
    · rw [hs]
  · intro name pattern hn hne hp hpe hbad
    rw [hname name hn hne, hp]
    have hv : validName name = false := by
      cases hv : validName name with
      | false => rfl
      | true => exact absurd ((validName_iff name hne).mp hv) hbad
    simp [asString, hpe, hv]
  · intro name pattern hn hne hp hpe hgood
    rw [hname name hn hne, hp]
    have hv : validName name = true := (validName_iff name hne).mpr hgood
    simp [asString, hpe, hv]

/-- C20: `CreateTemplate` succeeds if and only if `params.name` is a non-empty string made
solely of ASCII letters, digits and hyphens and `params.pattern` is a non-empty string;
otherwise it fails with the first applicable message in the order "Missing required parameter:
name", "Missing required parameter: pattern", "Invalid template name: must be alphanumeric with
hyphens"; on success the result carries `name` and `pattern` unchanged. -/
theorem C20_CreateTemplate_outcome (e : Env) (params : JMap) :
    ((∃ r, CreateTemplate e params = .ok r) ↔
        ∃ name pattern, params.get "name" = some (.str name) ∧ name ≠ "" ∧
          (∀ c ∈ name.toList, c.isAlphanum = true ∨ c = '-') ∧
          params.get "pattern" = some (.str pattern) ∧ pattern ≠ "") ∧
      ((∀ name, params.get "name" = some (.str name) → name = "") →
        CreateTemplate e params = .error "Missing required parameter: name") ∧
      (∀ name, params.get "name" = some (.str name) → name ≠ "" →
        (∀ pattern, params.get "pattern" = some (.str pattern) → pattern = "") →
        CreateTemplate e params = .error "Missing required parameter: pattern") ∧
      (∀ name pattern, params.get "name" = some (.str name) → name ≠ "" →
        params.get "pattern" = some (.str pattern) → pattern ≠ "" →
        ¬ (∀ c ∈ name.toList, c.isAlphanum = true ∨ c = '-') →
        CreateTemplate e params =
          .error "Invalid template name: must be alphanumeric with hyphens") ∧
      (∀ name pattern r, params.get "name" = some (.str name) →
        params.get "pattern" = some (.str pattern) → CreateTemplate e params = .ok r →
        JMap.get r "name" = some (.str name) ∧ JMap.get r "pattern" = some (.str pattern)) := by
  obtain ⟨c1, c2, c3, c4⟩ := CreateTemplate_cases e params
  have hsucc : (∃ r, CreateTemplate e params = .ok r) →
      ∃ name pattern, params.get "name" = some (.str name) ∧ name ≠ "" ∧
        (∀ c ∈ name.toList, c.isAlphanum = true ∨ c = '-') ∧
        params.get "pattern" = some (.str pattern) ∧ pattern ≠ "" := by
    rintro ⟨r, hr⟩
    by_cases h1 : ∀ name, params.get "name" = some (.str name) → name = ""
    · rw [c1 h1] at hr
      exact Except.noConfusion hr
    · push_neg at h1
      obtain ⟨name, hn, hne⟩ := h1
      by_cases h2 : ∀ pattern, params.get "pattern" = some (.str pattern) → pattern = ""
      · rw [c2 name hn hne h2] at hr
        exact Except.noConfusion hr
      · push_neg at h2
        obtain ⟨pattern, hp, hpe⟩ := h2
        by_cases h3 : ∀ c ∈ name.toList, c.isAlphanum = true ∨ c = '-'
        · exact ⟨name, pattern, hn, hne, h3, hp, hpe⟩
        · rw [c3 name pattern hn hne hp hpe h3] at hr
          exact Except.noConfusion hr
  refine ⟨⟨hsucc, ?_⟩, c1, c2, c3, ?_⟩
  · rintro ⟨name, pattern, hn, hne, hgood, hp, hpe⟩
    exact ⟨_, c4 name pattern hn hne hp hpe hgood⟩
  · intro name pattern r hn hp hr
    obtain ⟨name', pattern', hn', hne', hgood', hp', hpe'⟩ := hsucc ⟨r, hr⟩
    rw [hn] at hn'
    rw [hp] at hp'
    cases hn'
    cases hp'
    rw [c4 name pattern hn hne' hp hpe' hgood'] at hr
    cases hr
    simp [JMap.get, List.lookup]

/-- C20 at concrete requests: a well-formed template is created, and a name with an
underscore is refused. -/
theorem C20_CreateTemplate_outcome_witness :
    CreateTemplate sampleEnv [("name", .str "my_tpl"), ("pattern", .str "Hello")] =
      .error "Invalid template name: must be alphanumeric with hyphens" :=
  (C20_CreateTemplate_outcome sampleEnv
    [("name", .str "my_tpl"), ("pattern", .str "Hello")]).2.2.2.1 "my_tpl" "Hello" rfl
    (by decide) rfl (by decide) (by
      intro h
      have := h '_' (by decide)
      revert this
      decide)

end TC
